import Mathlib

/-!
Verification of the Bloom plant-care bot's Diagnosis-to-Reminder engine.

The definitions below are a shallow embedding of the Python source:
* `database.py` — the reminders table and its Create/Replace operations
  (`create_reminder`, `create_growing_reminder`), `update_plant_state`;
* `services/ai_service.py` — the state/interval extractors and the two-stage
  analysis pipeline `analyze_plant_image`;
* `bot.py` — the legacy single-stage pipeline `analyze_plant_image`, the
  line parsers, the daily sweep `check_and_send_reminders`, the watering
  callbacks, and `schedule_next_task_reminder`;
* `services/reminder_service.py` — `send_watering_reminders`,
  `send_single_watering_reminder`, `create_plant_reminder`;
* `services/plant_service.py` / `services/seasonal_adjustment_service.py` —
  the services-layer save and seasonal passes.

Timestamps are modelled as day numbers (`Nat`): every comparison the
claims touch is a `::date` comparison in the SQL.  Rows of the
`reminders` table are records; the table itself is a `List Reminder`.
-/

namespace Bloom

/-! ## Reminders table (database.py, CREATE TABLE reminders) -/

/-- One row of the `reminders` table.  `next_date` and `last_sent` are
day numbers; column defaults follow the SQL schema
(`is_active BOOLEAN DEFAULT TRUE`, `send_count INTEGER DEFAULT 0`). -/
structure Reminder where
  rid : Nat
  user_id : Nat
  plant_id : Option Nat := none
  growing_plant_id : Option Nat := none
  reminder_type : String
  next_date : Nat
  is_active : Bool := true
  last_sent : Option Nat := none
  send_count : Nat := 0
  stage_number : Option Nat := none
  task_day : Option Nat := none
deriving Repr, DecidableEq

/-- Does row `r` count as an active reminder for the (owner, target, type)
triple `(u, p, g, t)`?  The target is either a plant (`p`) or a growing
plan (`g`). -/
def isActiveFor (u : Nat) (p g : Option Nat) (t : String) (r : Reminder) : Bool :=
  r.is_active && r.user_id == u && r.plant_id == p && r.growing_plant_id == g &&
    r.reminder_type == t

/-- Number of active rows for a given triple. -/
def activeCount (u : Nat) (p g : Option Nat) (t : String) (rs : List Reminder) : Nat :=
  (rs.filter (isActiveFor u p g t)).length

/-- The invariant: at most one active reminder per (owner, target, type). -/
def AtMostOneActive (rs : List Reminder) : Prop :=
  ∀ u p g t, activeCount u p g t rs ≤ 1

/-- First half of `PlantDatabase.create_reminder` (database.py:737): flip
`is_active` off on every active row for `(user_id, plant_id, reminder_type)`. -/
def deactivateForPlant (u p : Nat) (t : String) (rs : List Reminder) : List Reminder :=
  rs.map (fun r =>
    if r.user_id == u && r.plant_id == some p && r.reminder_type == t && r.is_active then
      { r with is_active := false }
    else r)

/-- `PlantDatabase.create_reminder` (database.py:737-749): deactivate, then
insert a fresh active row. -/
def create_reminder (u p : Nat) (t : String) (nextDate : Nat) (newId : Nat)
    (rs : List Reminder) : List Reminder :=
  deactivateForPlant u p t rs ++
    [{ rid := newId, user_id := u, plant_id := some p, reminder_type := t,
       next_date := nextDate }]

/-- First half of `PlantDatabase.create_growing_reminder` (database.py:855):
flip `is_active` off on every active row for `(growing_plant_id,
reminder_type)` — note the SQL does not filter on `user_id` here. -/
def deactivateForGrowing (g : Nat) (t : String) (rs : List Reminder) : List Reminder :=
  rs.map (fun r =>
    if r.growing_plant_id == some g && r.reminder_type == t && r.is_active then
      { r with is_active := false }
    else r)

/-- `PlantDatabase.create_growing_reminder` (database.py:855-869). -/
def create_growing_reminder (g u : Nat) (t : String) (nextDate : Nat)
    (stageNumber taskDay : Option Nat) (newId : Nat) (rs : List Reminder) : List Reminder :=
  deactivateForGrowing g t rs ++
    [{ rid := newId, user_id := u, plant_id := none, growing_plant_id := some g,
       reminder_type := t, next_date := nextDate, stage_number := stageNumber,
       task_day := taskDay }]

/-! ### Counting lemmas -/

theorem activeCount_deactivateForPlant_le (u0 p0 : Nat) (t0 : String)
    (u : Nat) (p g : Option Nat) (t : String) (rs : List Reminder) :
    activeCount u p g t (deactivateForPlant u0 p0 t0 rs) ≤ activeCount u p g t rs := by
  induction rs with
  | nil => simp [activeCount, deactivateForPlant]
  | cons r rs ih =>
    simp only [activeCount, deactivateForPlant, List.map_cons, List.filter_cons] at *
    by_cases hc : (r.user_id == u0 && r.plant_id == some p0 && r.reminder_type == t0 &&
        r.is_active) = true
    · simp only [hc, if_pos]
      have hfalse : isActiveFor u p g t { r with is_active := false } = false := by
        simp [isActiveFor]
      simp only [hfalse, Bool.false_eq_true, if_neg, not_false_iff]
      by_cases hr : isActiveFor u p g t r = true
      · simp only [hr, if_pos]
        exact Nat.le_succ_of_le ih
      · simp only [hr, Bool.false_eq_true, if_neg, not_false_iff]
        exact ih
    · simp only [hc, Bool.false_eq_true, if_neg, not_false_iff]
      by_cases hr : isActiveFor u p g t r = true
      · simp only [hr, if_pos, List.length_cons]
        exact Nat.succ_le_succ ih
      · simp only [hr, Bool.false_eq_true, if_neg, not_false_iff]
        exact ih

theorem activeCount_deactivateForPlant_self (u p : Nat) (g : Option Nat) (t : String)
    (rs : List Reminder) :
    activeCount u (some p) g t (deactivateForPlant u p t rs) = 0 := by
  induction rs with
  | nil => simp [activeCount, deactivateForPlant]
  | cons r rs ih =>
    simp only [activeCount, deactivateForPlant, List.map_cons, List.filter_cons] at *
    by_cases hc : (r.user_id == u && r.plant_id == some p && r.reminder_type == t &&
        r.is_active) = true
    · have hfalse : isActiveFor u (some p) g t { r with is_active := false } = false := by
        simp [isActiveFor]
      simp only [hc, if_pos, hfalse, Bool.false_eq_true, if_neg, not_false_iff]
      exact ih
    · have hr : isActiveFor u (some p) g t r = false := by
        by_contra hcon
        rw [Bool.not_eq_false] at hcon
        unfold isActiveFor at hcon
        simp only [Bool.and_eq_true] at hcon
        obtain ⟨⟨⟨⟨hact, hu⟩, hp⟩, hg⟩, ht⟩ := hcon
        apply hc
        simp only [Bool.and_eq_true]
        exact ⟨⟨⟨hu, hp⟩, ht⟩, hact⟩
      simp only [hc, Bool.false_eq_true, if_neg, not_false_iff, hr]
      exact ih

theorem activeCount_append (u : Nat) (p g : Option Nat) (t : String)
    (rs rs2 : List Reminder) :
    activeCount u p g t (rs ++ rs2) = activeCount u p g t rs + activeCount u p g t rs2 := by
  simp [activeCount, List.filter_append]

theorem activeCount_singleton (u : Nat) (p g : Option Nat) (t : String) (r : Reminder) :
    activeCount u p g t [r] = if isActiveFor u p g t r then 1 else 0 := by
  by_cases hr : isActiveFor u p g t r = true
  · simp [activeCount, List.filter_cons, hr]
  · simp [activeCount, List.filter_cons, hr]

theorem activeCount_deactivateForGrowing_le (g0 : Nat) (t0 : String)
    (u : Nat) (p g : Option Nat) (t : String) (rs : List Reminder) :
    activeCount u p g t (deactivateForGrowing g0 t0 rs) ≤ activeCount u p g t rs := by
  induction rs with
  | nil => simp [activeCount, deactivateForGrowing]
  | cons r rs ih =>
    simp only [activeCount, deactivateForGrowing, List.map_cons, List.filter_cons] at *
    by_cases hc : (r.growing_plant_id == some g0 && r.reminder_type == t0 &&
        r.is_active) = true
    · simp only [hc, if_pos]
      have hfalse : isActiveFor u p g t { r with is_active := false } = false := by
        simp [isActiveFor]
      simp only [hfalse, Bool.false_eq_true, if_neg, not_false_iff]
      by_cases hr : isActiveFor u p g t r = true
      · simp only [hr, if_pos]
        exact Nat.le_succ_of_le ih
      · simp only [hr, Bool.false_eq_true, if_neg, not_false_iff]
        exact ih
    · simp only [hc, Bool.false_eq_true, if_neg, not_false_iff]
      by_cases hr : isActiveFor u p g t r = true
      · simp only [hr, if_pos, List.length_cons]
        exact Nat.succ_le_succ ih
      · simp only [hr, Bool.false_eq_true, if_neg, not_false_iff]
        exact ih

theorem activeCount_deactivateForGrowing_self (g : Nat) (t : String)
    (u : Nat) (p : Option Nat) (rs : List Reminder) :
    activeCount u p (some g) t (deactivateForGrowing g t rs) = 0 := by
  induction rs with
  | nil => simp [activeCount, deactivateForGrowing]
  | cons r rs ih =>
    simp only [activeCount, deactivateForGrowing, List.map_cons, List.filter_cons] at *
    by_cases hc : (r.growing_plant_id == some g && r.reminder_type == t &&
        r.is_active) = true
    · have hfalse : isActiveFor u p (some g) t { r with is_active := false } = false := by
        simp [isActiveFor]
      simp only [hc, if_pos, hfalse, Bool.false_eq_true, if_neg, not_false_iff]
      exact ih
    · have hr : isActiveFor u p (some g) t r = false := by
        by_contra hcon
        rw [Bool.not_eq_false] at hcon
        unfold isActiveFor at hcon
        simp only [Bool.and_eq_true] at hcon
        obtain ⟨⟨⟨⟨hact, hu⟩, hp⟩, hg⟩, ht⟩ := hcon
        apply hc
        simp only [Bool.and_eq_true]
        exact ⟨⟨hg, ht⟩, hact⟩
      simp only [hc, Bool.false_eq_true, if_neg, not_false_iff, hr]
      exact ih

theorem create_reminder_preserves_inv (rs : List Reminder) (h : AtMostOneActive rs)
    (u p : Nat) (t : String) (d i : Nat) :
    AtMostOneActive (create_reminder u p t d i rs) := by
  intro u2 p2 g2 t2
  unfold create_reminder
  rw [activeCount_append, activeCount_singleton]
  by_cases hr : isActiveFor u2 p2 g2 t2
      { rid := i, user_id := u, plant_id := some p, reminder_type := t,
        next_date := d } = true
  · unfold isActiveFor at hr
    simp only [Bool.and_eq_true, beq_iff_eq] at hr
    obtain ⟨⟨⟨⟨_, hu⟩, hp⟩, hg⟩, ht⟩ := hr
    subst hu hp hg ht
    have hself : isActiveFor u (some p) none t
        { rid := i, user_id := u, plant_id := some p, reminder_type := t,
          next_date := d } = true := by
      simp [isActiveFor]
    rw [if_pos hself, activeCount_deactivateForPlant_self]
  · rw [if_neg hr]
    simp only [Nat.add_zero]
    exact le_trans (activeCount_deactivateForPlant_le u p t u2 p2 g2 t2 rs) (h u2 p2 g2 t2)

theorem create_growing_reminder_preserves_inv (rs : List Reminder) (h : AtMostOneActive rs)
    (g u : Nat) (t : String) (d : Nat) (sn td : Option Nat) (i : Nat) :
    AtMostOneActive (create_growing_reminder g u t d sn td i rs) := by
  intro u2 p2 g2 t2
  unfold create_growing_reminder
  rw [activeCount_append, activeCount_singleton]
  by_cases hr : isActiveFor u2 p2 g2 t2
      { rid := i, user_id := u, plant_id := none, growing_plant_id := some g,
        reminder_type := t, next_date := d, stage_number := sn, task_day := td } = true
  · unfold isActiveFor at hr
    simp only [Bool.and_eq_true, beq_iff_eq] at hr
    obtain ⟨⟨⟨⟨_, hu⟩, hp⟩, hg⟩, ht⟩ := hr
    subst hu hp hg ht
    have hself : isActiveFor u none (some g) t
        { rid := i, user_id := u, plant_id := none, growing_plant_id := some g,
          reminder_type := t, next_date := d, stage_number := sn, task_day := td } = true := by
      simp [isActiveFor]
    rw [if_pos hself, activeCount_deactivateForGrowing_self]
  · rw [if_neg hr]
    simp only [Nat.add_zero]
    exact le_trans (activeCount_deactivateForGrowing_le g t u2 p2 g2 t2 rs) (h u2 p2 g2 t2)

theorem deactivateForPlant_preserves_inv (rs : List Reminder) (h : AtMostOneActive rs)
    (u p : Nat) (t : String) :
    AtMostOneActive (deactivateForPlant u p t rs) := by
  intro u2 p2 g2 t2
  exact le_trans (activeCount_deactivateForPlant_le u p t u2 p2 g2 t2 rs) (h u2 p2 g2 t2)

theorem deactivateForGrowing_preserves_inv (rs : List Reminder) (h : AtMostOneActive rs)
    (g : Nat) (t : String) :
    AtMostOneActive (deactivateForGrowing g t rs) := by
  intro u2 p2 g2 t2
  exact le_trans (activeCount_deactivateForGrowing_le g t u2 p2 g2 t2 rs) (h u2 p2 g2 t2)

/-- Claim C1: for every (owner, target, type) triple at most one reminder row
is active, and both Create/Replace operations (`create_reminder` and
`create_growing_reminder`) preserve the invariant, including at the
intermediate state after the deactivation UPDATE and before the INSERT —
no state reachable during a Create/Replace exposes two active rows for a
triple. -/
theorem c1_at_most_one_active_preserved (rs : List Reminder) (h : AtMostOneActive rs)
    (u p g : Nat) (t : String) (d i : Nat) (sn td : Option Nat) :
    AtMostOneActive (deactivateForPlant u p t rs) ∧
    AtMostOneActive (create_reminder u p t d i rs) ∧
    AtMostOneActive (deactivateForGrowing g t rs) ∧
    AtMostOneActive (create_growing_reminder g u t d sn td i rs) :=
  ⟨deactivateForPlant_preserves_inv rs h u p t,
   create_reminder_preserves_inv rs h u p t d i,
   deactivateForGrowing_preserves_inv rs h g t,
   create_growing_reminder_preserves_inv rs h g u t d sn td i⟩

/-- A concrete reminder row used by the C1 witness. -/
def sampleRow : Reminder :=
  { rid := 1, user_id := 7, plant_id := some 3, reminder_type := "watering",
    next_date := 4 }

/-- A concrete one-row reminders table used by the C1 witness. -/
def sampleTable : List Reminder := [sampleRow]

/-- Witness for C1 at a concrete starting table containing one active
watering reminder. -/
theorem c1_at_most_one_active_preserved_witness :
    AtMostOneActive sampleTable ∧
    AtMostOneActive (create_reminder 7 3 "watering" 9 2 sampleTable) := by
  have h0 : AtMostOneActive sampleTable := by
    intro u2 p2 g2 t2
    rw [sampleTable, activeCount_singleton]
    by_cases hr : isActiveFor u2 p2 g2 t2 sampleRow = true
    · rw [if_pos hr]
    · rw [if_neg hr]
      exact Nat.zero_le 1
  exact ⟨h0,
    (c1_at_most_one_active_preserved sampleTable h0 7 3 1 "watering" 9 2 none none).2.1⟩

/-! ## String helpers shared by the parsers

Python's `str.lower` is modelled for the two alphabets the keyword
tables use (ASCII and the Cyrillic А–Я block); `re.findall` followed by
`int(numbers[0])` is modelled by taking the first maximal digit run. -/

/-- Lower-case one character (ASCII plus Cyrillic А–Я). -/
def lowerChar (c : Char) : Char :=
  if 0x410 ≤ c.toNat && c.toNat ≤ 0x42F then Char.ofNat (c.toNat + 0x20)
  else c.toLower

/-- Lower-case a string, mirroring Python `str.lower()` on the alphabets
used by the keyword tables. -/
def lowerStr (s : String) : String :=
  String.mk (s.toList.map lowerChar)

/-- Value of a digit run. -/
def digitsVal (cs : List Char) : Nat :=
  cs.foldl (fun a c => a * 10 + (c.toNat - 48)) 0

/-- Leading digits of a character list. -/
def leadingDigits : List Char → List Char
  | [] => []
  | c :: cs => if c.isDigit then c :: leadingDigits cs else []

/-- First maximal digit run in a character list, as a number —
`re.findall(r'\d+', s)[0]` when it exists. -/
def firstNumber : List Char → Option Nat
  | [] => none
  | c :: cs => if c.isDigit then some (digitsVal (c :: leadingDigits cs)) else firstNumber cs

/-- Does `hay` start with `needle` (on character lists)? -/
def beginsWith : List Char → List Char → Bool
  | [], _ => true
  | _ :: _, [] => false
  | a :: as, b :: bs => a == b && beginsWith as bs

/-- Whitespace test used by `trimChars` (Python `str.strip`). -/
def isSpaceChar (c : Char) : Bool :=
  c == ' ' || c == '\t' || c == '\n' || c == '\r'

/-- Drop leading whitespace. -/
def dropLeadingSpaces : List Char → List Char
  | [] => []
  | c :: cs => if isSpaceChar c then dropLeadingSpaces cs else c :: cs

/-- Python `line.strip()` on a character list. -/
def trimChars (cs : List Char) : List Char :=
  dropLeadingSpaces ((dropLeadingSpaces cs.reverse).reverse)

/-- `line.strip().startswith(marker)` on strings, computed on character
lists so that every concrete instance evaluates. -/
def trimStartsWith (line marker : String) : Bool :=
  beginsWith marker.toList (trimChars line.toList)

/-- Substring containment, `needle in hay` in Python. -/
def hasSub (needle : List Char) : List Char → Bool
  | [] => needle.isEmpty
  | c :: cs => beginsWith needle (c :: cs) || hasSub needle cs

/-- Substring containment on strings. -/
def strHasSub (hay needle : String) : Bool :=
  hasSub needle.toList hay.toList

/-! ## Seasons (utils/season_utils.py) -/

/-- The four season labels of `get_current_season`. -/
inductive Season
  | winter
  | spring
  | summer
  | autumn
deriving Repr, DecidableEq

/-- Month → season mapping of `get_current_season` (months 12, 1, 2 are
winter, 3–5 spring, 6–8 summer, the rest autumn). -/
def seasonOfMonth (month : Nat) : Season :=
  if month == 12 || month == 1 || month == 2 then .winter
  else if month == 3 || month == 4 || month == 5 then .spring
  else if month == 6 || month == 7 || month == 8 then .summer
  else .autumn

/-- The season-dependent default watering interval of
`extract_and_remove_watering_interval` (ai_service.py:132-137):
base 10, summer 7, winter 12. -/
def seasonDefaultInterval : Season → Nat
  | .summer => 7
  | .winter => 12
  | _ => 10

/-! ## Interval extraction (ai_service.py and bot.py) -/

/-- Find the number on the first `ПОЛИВ_ИНТЕРВАЛ:` line that carries one
(the regex `ПОЛИВ_ИНТЕРВАЛ:\s*(\d+)` searched over the text, modelled
line by line). -/
def findIntervalNumber : List String → Option Nat
  | [] => none
  | l :: ls =>
    if trimStartsWith l "ПОЛИВ_ИНТЕРВАЛ:" then
      match firstNumber l.toList with
      | some n => some n
      | none => findIntervalNumber ls
    else findIntervalNumber ls

/-- `extract_and_remove_watering_interval` (ai_service.py:119-161): parse
the interval line, clamp the value into [3, 28]; season-dependent default
when the line is absent.  Returns (interval, cleaned text). -/
def extract_and_remove_watering_interval (lines : List String) (season : Season) :
    Nat × List String :=
  match findIntervalNumber lines with
  | some n =>
    (max 3 (min 28 n), lines.filter (fun l => !(trimStartsWith l "ПОЛИВ_ИНТЕРВАЛ:")))
  | none => (seasonDefaultInterval season, lines)

/-- One loop iteration of `extract_personal_watering_info` for the
`interval_days` field. -/
def personalIntervalStep (acc : Nat) (line : String) : Nat :=
  if trimStartsWith line "ПОЛИВ_ИНТЕРВАЛ:" then
    match firstNumber line.toList with
    | some n => if 1 ≤ n && n ≤ 15 then n else acc
    | none => acc
  else acc

/-- The `interval_days` field of `extract_personal_watering_info`
(bot.py:653-694): default 5; a parsed value is accepted when it lies in
[1, 15] and is otherwise ignored — there is no clamping here. -/
def extract_personal_watering_info (lines : List String) : Nat :=
  lines.foldl personalIntervalStep 5

/-- The watering-interval write of `update_plant_state`
(database.py:497-503): when the state's watering adjustment is nonzero,
`watering_interval := GREATEST(2, LEAST(15, interval + adjustment))`. -/
def update_plant_state_interval (current adj : Int) : Int :=
  if adj ≠ 0 then max 2 (min 15 (current + adj)) else current

/-! ### C2: interval bounds -/

theorem personalIntervalStep_range (acc : Nat) (line : String)
    (h1 : 1 ≤ acc) (h2 : acc ≤ 15) :
    1 ≤ personalIntervalStep acc line ∧ personalIntervalStep acc line ≤ 15 := by
  unfold personalIntervalStep
  by_cases hs : trimStartsWith line "ПОЛИВ_ИНТЕРВАЛ:" = true
  · rw [if_pos hs]
    cases hn : firstNumber line.toList with
    | none => exact ⟨h1, h2⟩
    | some n =>
      by_cases hg : (1 ≤ n && n ≤ 15) = true
      · simp only [hg, if_pos]
        simp only [Bool.and_eq_true, decide_eq_true_eq] at hg
        exact hg
      · simp only [hg, Bool.false_eq_true, if_neg, not_false_iff]
        exact ⟨h1, h2⟩
  · rw [if_neg hs]
    exact ⟨h1, h2⟩

theorem extract_personal_watering_info_range (lines : List String) :
    1 ≤ extract_personal_watering_info lines ∧ extract_personal_watering_info lines ≤ 15 := by
  unfold extract_personal_watering_info
  have haux : ∀ (ls : List String) (acc : Nat), 1 ≤ acc → acc ≤ 15 →
      1 ≤ ls.foldl personalIntervalStep acc ∧ ls.foldl personalIntervalStep acc ≤ 15 := by
    intro ls
    induction ls with
    | nil => intro acc h1 h2; exact ⟨h1, h2⟩
    | cons l ls2 ih =>
      intro acc h1 h2
      simp only [List.foldl_cons]
      have hstep := personalIntervalStep_range acc l h1 h2
      exact ih (personalIntervalStep acc l) hstep.1 hstep.2
  exact haux lines 5 (by omega) (by omega)

theorem extract_and_remove_watering_interval_range (lines : List String) (season : Season) :
    3 ≤ (extract_and_remove_watering_interval lines season).1 ∧
      (extract_and_remove_watering_interval lines season).1 ≤ 28 := by
  unfold extract_and_remove_watering_interval
  cases hfind : findIntervalNumber lines with
  | some n =>
    simp only
    constructor
    · exact Nat.le_max_left 3 (min 28 n)
    · exact Nat.max_le.mpr ⟨by omega, Nat.min_le_left 28 n⟩
  | none =>
    simp only
    cases season <;> simp [seasonDefaultInterval]

theorem update_plant_state_interval_range (cur adj : Int) :
    update_plant_state_interval cur adj = cur ∨
      (2 ≤ update_plant_state_interval cur adj ∧ update_plant_state_interval cur adj ≤ 15) := by
  unfold update_plant_state_interval
  by_cases hadj : adj = 0
  · left; rw [if_neg (by simp [hadj])]
  · right
    rw [if_pos hadj]
    constructor
    · exact le_max_left 2 (min 15 (cur + adj))
    · exact max_le (by norm_num) (min_le_left 15 (cur + adj))

/-- Counterexample to claim C2 as stated: the save path in `bot.py`
parses `ПОЛИВ_ИНТЕРВАЛ: 2` to a stored interval of 2, and the per-state
watering adjustment of `update_plant_state` moves an interval of 3 with
adjustment −2 to 2 — both outside [3, 28]. -/
theorem c2_interval_bounds_counterexample :
    extract_personal_watering_info ["ПОЛИВ_ИНТЕРВАЛ: 2"] = 2 ∧
    ¬ (3 ≤ extract_personal_watering_info ["ПОЛИВ_ИНТЕРВАЛ: 2"]) ∧
    update_plant_state_interval 3 (-2) = 2 ∧
    ¬ (3 ≤ update_plant_state_interval 3 (-2)) := by
  refine ⟨by decide, by decide, by decide, by decide⟩

/-- Claim C2 as amended: the reasoning-step extractor
`extract_and_remove_watering_interval` clamps the model-provided interval
into [3, 28] (season defaults included), but the save path of `bot.py`
accepts any parsed value in [1, 15] (default 5) without clamping to
[3, 28], and the per-state watering adjustment of `update_plant_state`
clamps into [2, 15]; so the stored interval lies in [1, 28] after these
steps, not necessarily in [3, 28]. -/
theorem c2_interval_bounds_amended (lines : List String) (season : Season) (cur adj : Int) :
    (3 ≤ (extract_and_remove_watering_interval lines season).1 ∧
      (extract_and_remove_watering_interval lines season).1 ≤ 28) ∧
    (1 ≤ extract_personal_watering_info lines ∧
      extract_personal_watering_info lines ≤ 15) ∧
    (update_plant_state_interval cur adj = cur ∨
      (2 ≤ update_plant_state_interval cur adj ∧ update_plant_state_interval cur adj ≤ 15)) :=
  ⟨extract_and_remove_watering_interval_range lines season,
   extract_personal_watering_info_range lines,
   update_plant_state_interval_range cur adj⟩

/-! ## Diagnosis pipelines (bot.py and services/ai_service.py)

A model call either fails outright or returns its reply text, modelled
as the list of reply lines; every downstream length/confidence check is
re-applied to that text exactly as in the source. -/

/-- Outcome of one model-inference call. -/
inductive ObsOut
  | fail
  | ok (raw : List String)
deriving Repr, DecidableEq

/-- Character count of the reply, for the `len(...) < 100` / `< 50`
quality checks (newline separators not counted). -/
def totalLen (lines : List String) : Nat :=
  (lines.map String.length).sum

/-- Confidence extraction of `analyze_with_openai_advanced`
(bot.py:870-878): 0 when no `УВЕРЕННОСТЬ:` line exists, the parsed
number of the first one otherwise, 70 when that line carries no number. -/
def extractConfidenceAdv (lines : List String) : Nat :=
  match lines.find? (fun l => beginsWith "УВЕРЕННОСТЬ:".toList l.toList) with
  | some l =>
    match firstNumber l.toList with
    | some n => n
    | none => 70
  | none => 0

/-- Strip a leading marker and whitespace: `line.replace(marker, "").strip()`
for a line that starts with the marker. -/
def markerRest (marker : String) (cs : List Char) : String :=
  String.mk (trimChars (cs.drop marker.toList.length))

/-- Per-line segment of `format_plant_analysis` (bot.py:696-795).  Each
recognised marker contributes one decorated segment; the inner icon
selection is abbreviated to a fixed icon per marker, which the claims
never inspect. -/
def formatLinePiece (line : String) : String :=
  let cs := trimChars line.toList
  if cs.isEmpty then ""
  else if beginsWith "РАСТЕНИЕ:".toList cs then
    "🌿 <b>" ++ markerRest "РАСТЕНИЕ:" cs ++ "</b>\n"
  else if beginsWith "УВЕРЕННОСТЬ:".toList cs then
    "🎪 <b>Уверенность:</b> " ++ markerRest "УВЕРЕННОСТЬ:" cs ++ "\n\n"
  else if beginsWith "ТЕКУЩЕЕ_СОСТОЯНИЕ:".toList cs then ""
  else if beginsWith "СОСТОЯНИЕ:".toList cs then
    "ℹ️ <b>Общее состояние:</b> " ++ markerRest "СОСТОЯНИЕ:" cs ++ "\n\n"
  else if beginsWith "ПОЛИВ_АНАЛИЗ:".toList cs then
    "💧 <b>Анализ полива:</b> " ++ markerRest "ПОЛИВ_АНАЛИЗ:" cs ++ "\n"
  else if beginsWith "ПОЛИВ_РЕКОМЕНДАЦИИ:".toList cs then
    "💡 <b>Рекомендации:</b> " ++ markerRest "ПОЛИВ_РЕКОМЕНДАЦИИ:" cs ++ "\n"
  else if beginsWith "ПОЛИВ_ИНТЕРВАЛ:".toList cs then
    "⏰ <b>Интервал полива:</b> каждые " ++ markerRest "ПОЛИВ_ИНТЕРВАЛ:" cs ++ " дней\n\n"
  else if beginsWith "СВЕТ:".toList cs then
    "☀️ <b>Освещение:</b> " ++ markerRest "СВЕТ:" cs ++ "\n"
  else if beginsWith "ТЕМПЕРАТУРА:".toList cs then
    "🌡️ <b>Температура:</b> " ++ markerRest "ТЕМПЕРАТУРА:" cs ++ "\n"
  else if beginsWith "ВЛАЖНОСТЬ:".toList cs then
    "💨 <b>Влажность:</b> " ++ markerRest "ВЛАЖНОСТЬ:" cs ++ "\n"
  else if beginsWith "ПОДКОРМКА:".toList cs then
    "🍽️ <b>Подкормка:</b> " ++ markerRest "ПОДКОРМКА:" cs ++ "\n"
  else if beginsWith "СОВЕТ:".toList cs then
    "\n💡 <b>Персональный совет:</b> " ++ markerRest "СОВЕТ:" cs
  else ""

/-- `format_plant_analysis` (bot.py:696-795): formatted body followed by
the confidence-tier footer and the unconditional closing footer. -/
def format_plant_analysis (lines : List String) (confidence : Nat) : String :=
  let body := String.join (lines.map formatLinePiece)
  let confFooter :=
    if 80 ≤ confidence then "\n\n🏆 <i>Высокая точность распознавания</i>"
    else if 60 ≤ confidence then "\n\n👍 <i>Хорошее распознавание</i>"
    else "\n\n🤔 <i>Требуется дополнительная идентификация</i>"
  (body ++ confFooter) ++ "\n💾 <i>Сохраните для отслеживания изменений!</i>"

/-- Result record of the `bot.py` pipeline functions. -/
structure BotResult where
  success : Bool
  analysis : String := ""
  raw_analysis : List String := []
  confidence : Nat := 0
  source : String := ""
  needs_retry : Bool := false
deriving Repr, DecidableEq

/-- `analyze_with_openai_advanced` (bot.py:823-903): a failed call or a
reply under 100 characters is a failure; otherwise the reply is formatted
and its confidence extracted. -/
def analyze_with_openai_advanced (o : ObsOut) : BotResult :=
  match o with
  | .fail => { success := false, source := "openai_advanced" }
  | .ok raw =>
    if totalLen raw < 100 then { success := false, source := "openai_advanced" }
    else
      { success := true,
        analysis := format_plant_analysis raw (extractConfidenceAdv raw),
        raw_analysis := raw,
        confidence := extractConfidenceAdv raw,
        source := "openai_advanced" }

/-- The fixed generic fallback template of `bot.analyze_plant_image`
(bot.py:927-942). -/
def fallbackText : List String :=
  ["РАСТЕНИЕ: Комнатное растение (требуется идентификация)",
   "УВЕРЕННОСТЬ: 20%",
   "ТЕКУЩЕЕ_СОСТОЯНИЕ: healthy",
   "ПРИЧИНА_СОСТОЯНИЯ: Недостаточно данных",
   "ЭТАП_РОСТА: young",
   "СОСТОЯНИЕ: Требуется визуальный осмотр",
   "ПОЛИВ_АНАЛИЗ: Почва не видна",
   "ПОЛИВ_РЕКОМЕНДАЦИИ: Проверяйте влажность почвы",
   "ПОЛИВ_ИНТЕРВАЛ: 5",
   "СВЕТ: Яркий рассеянный свет",
   "ТЕМПЕРАТУРА: 18-24°C",
   "ВЛАЖНОСТЬ: 40-60%",
   "ПОДКОРМКА: Раз в 2-4 недели весной-летом",
   "СОВЕТ: Сделайте фото при хорошем освещении для точной идентификации"]

/-- `bot.analyze_plant_image` (bot.py:905-956).  The retry-by-recursion
with `retry_count` 0 then 1 is unrolled: `first` and `second` are the
outcomes of the two possible Observe calls.  Confidence ≥ 50 returns
immediately; otherwise one retry; a low-confidence success after the
retry is returned with `needs_retry`; a failure after the retry yields
the fixed fallback result with confidence 20. -/
def bot_analyze_plant_image (first second : ObsOut) : BotResult :=
  let r0 := analyze_with_openai_advanced first
  if r0.success = true ∧ 50 ≤ r0.confidence then r0
  else
    let r1 := analyze_with_openai_advanced second
    if r1.success = true ∧ 50 ≤ r1.confidence then r1
    else if r1.success then { r1 with needs_retry := true }
    else
      { success := true,
        analysis := format_plant_analysis fallbackText 20,
        raw_analysis := fallbackText,
        confidence := 20,
        source := "fallback",
        needs_retry := true }

/-- Number of Observe calls `bot.analyze_plant_image` makes: one when the
first call succeeds with confidence ≥ 50, two otherwise (the single
recursive retry). -/
def bot_analyze_observe_calls (first : ObsOut) : Nat :=
  let r0 := analyze_with_openai_advanced first
  if r0.success = true ∧ 50 ≤ r0.confidence then 1 else 2

/-- Confidence extraction of `analyze_vision_step` (ai_service.py:276-281):
default 50, lines stripped before matching. -/
def extractConfidenceVision (lines : List String) : Nat :=
  match lines.find? (fun l => beginsWith "УВЕРЕННОСТЬ:".toList (trimChars l.toList)) with
  | some l =>
    match firstNumber l.toList with
    | some n => n
    | none => 50
  | none => 50

/-- `analyze_vision_step` (ai_service.py:164-310): a failed call or a
reply under 50 characters is a failure; otherwise the parsed confidence
and the raw observations. -/
def analyze_vision_step (o : ObsOut) : Option (Nat × List String) :=
  match o with
  | .fail => none
  | .ok raw => if totalLen raw < 50 then none else some (extractConfidenceVision raw, raw)

/-- Outcome of the reasoning call (the in-step primary/fallback model
chain is folded into one outcome). -/
inductive ReasonOut
  | fail
  | ok (raw : List String)
deriving Repr, DecidableEq

/-- `analyze_reasoning_step` (ai_service.py:313-484): failure on a failed
call or a reply under 50 characters; otherwise the interval extracted and
stripped by `extract_and_remove_watering_interval`.  Returns
(watering_interval, cleaned reply lines). -/
def analyze_reasoning_step (season : Season) (r : ReasonOut) : Option (Nat × List String) :=
  match r with
  | .fail => none
  | .ok raw =>
    if totalLen raw < 50 then none
    else some (extract_and_remove_watering_interval raw season)

/-- Result record of `ai_service.analyze_plant_image`;
`watering_interval = none` models a result dict without that key. -/
structure AiResult where
  success : Bool
  source : String := ""
  confidence : Nat := 0
  watering_interval : Option Nat := none
  needs_retry : Bool := false
deriving Repr, DecidableEq

/-- `ai_service.analyze_plant_image` (ai_service.py:621-686): a Vision
failure falls back once to the legacy single-stage analyzer and surfaces
an error if that also fails; a Reasoning failure degrades to a success
vision-only result with a fixed 10-day interval; otherwise the two-stage
result with the reasoning interval and `needs_retry` when confidence < 50. -/
def ai_analyze_plant_image (vision legacy : ObsOut) (reasoning : ReasonOut)
    (season : Season) : AiResult :=
  match analyze_vision_step vision with
  | none =>
    let o := analyze_with_openai_advanced legacy
    if o.success then
      { success := true, source := o.source, confidence := o.confidence,
        watering_interval := none }
    else
      { success := false }
  | some (conf, _raw) =>
    match analyze_reasoning_step season reasoning with
    | none =>
      { success := true, source := "vision_only", confidence := conf,
        watering_interval := some 10, needs_retry := true }
    | some (interval, _clean) =>
      { success := true, source := "two_stage_analysis", confidence := conf,
        watering_interval := some interval, needs_retry := decide (conf < 50) }

/-! ### C3/C4: retry and fallback policy -/

theorem format_plant_analysis_ne_empty (lines : List String) (c : Nat) :
    format_plant_analysis lines c ≠ "" := by
  unfold format_plant_analysis
  intro hcon
  have hlen := congrArg String.length hcon
  rw [String.length_append] at hlen
  have hpos : 0 < ("\n💾 <i>Сохраните для отслеживания изменений!</i>" : String).length := by
    decide
  simp only [String.length_empty] at hlen
  omega

/-- A concrete well-formed vision reply (longer than 50 characters). -/
def sampleVisionRaw : List String :=
  ["РАСТЕНИЕ: Фикус Бенджамина",
   "УВЕРЕННОСТЬ: 80%",
   "ЧТО ВИДНО: здоровые глянцевые листья, равномерная окраска, плотная крона"]

/-- Counterexample to claim C3 as stated: in the services pipeline a
Diagnose failure yields the fixed interval 10, not the season default
(12 in winter), and an Observe failure whose legacy fallback also fails
surfaces success = false — a hard error. -/
theorem c3_failure_handling_counterexample :
    ((ai_analyze_plant_image (.ok sampleVisionRaw) .fail .fail .winter).watering_interval
        = some 10 ∧
      seasonDefaultInterval .winter = 12) ∧
    (ai_analyze_plant_image .fail .fail .fail .winter).success = false := by
  refine ⟨⟨by decide, by decide⟩, by decide⟩

/-- Claim C3 as amended: the bot-module pipeline retries a failing
Observe once and after two failures returns a success result with the
fixed generic fallback (confidence 20, the template whose parsed default
interval is 5); in the services pipeline a Diagnose failure degrades to a
success vision-only result with a fixed 10-day interval (not the season
default), while an Observe failure there falls back once to the legacy
single-stage analyzer and surfaces an error result if that also fails. -/
theorem c3_failure_handling_amended (raw : List String) (legacy : ObsOut)
    (reasoning : ReasonOut) (season : Season) (h : 50 ≤ totalLen raw) :
    ((bot_analyze_plant_image .fail .fail).success = true ∧
     (bot_analyze_plant_image .fail .fail).confidence = 20 ∧
     (bot_analyze_plant_image .fail .fail).needs_retry = true ∧
     (bot_analyze_plant_image .fail .fail).raw_analysis = fallbackText ∧
     extract_personal_watering_info fallbackText = 5) ∧
    ((ai_analyze_plant_image (.ok raw) legacy .fail season).success = true ∧
     (ai_analyze_plant_image (.ok raw) legacy .fail season).source = "vision_only" ∧
     (ai_analyze_plant_image (.ok raw) legacy .fail season).watering_interval = some 10) ∧
    (ai_analyze_plant_image .fail .fail reasoning season).success = false := by
  refine ⟨⟨by decide, by decide, by decide, by decide, by decide⟩, ?_, ?_⟩
  · have hv : analyze_vision_step (.ok raw) = some (extractConfidenceVision raw, raw) := by
      show (if totalLen raw < 50 then none else some (extractConfidenceVision raw, raw)) = _
      rw [if_neg (by omega)]
    unfold ai_analyze_plant_image
    rw [hv]
    simp [analyze_reasoning_step]
  · cases reasoning <;> rfl

/-- Witness for C3 at the concrete vision reply. -/
theorem c3_failure_handling_amended_witness :
    50 ≤ totalLen sampleVisionRaw ∧
    (ai_analyze_plant_image (.ok sampleVisionRaw) .fail .fail .summer).source
      = "vision_only" := by
  have h : 50 ≤ totalLen sampleVisionRaw := by decide
  exact ⟨h,
    (c3_failure_handling_amended sampleVisionRaw .fail .fail .summer h).2.1.2.1⟩

/-- A concrete low-confidence vision reply (confidence 40, length over
100 characters). -/
def sampleLowConfRaw : List String :=
  ["РАСТЕНИЕ: Монстера",
   "УВЕРЕННОСТЬ: 40%",
   "ПРИЗНАКИ: крупные резные листья с перфорацией, воздушные корни",
   "СОСТОЯНИЕ: часть листьев с желтизной по краю, тургор снижен"]

/-- Claim C4: an Observe success with confidence below 50 on the first
attempt is retried exactly once (two Observe calls in total); when the
retry is still below 50 the pipeline proceeds anyway, returning a success
result with needs_retry = true and a non-empty diagnosis. -/
theorem c4_low_confidence_retry (raw : List String)
    (hlen : 100 ≤ totalLen raw) (hconf : extractConfidenceAdv raw < 50) :
    bot_analyze_observe_calls (.ok raw) = 2 ∧
    (bot_analyze_plant_image (.ok raw) (.ok raw)).success = true ∧
    (bot_analyze_plant_image (.ok raw) (.ok raw)).needs_retry = true ∧
    (bot_analyze_plant_image (.ok raw) (.ok raw)).confidence = extractConfidenceAdv raw ∧
    (bot_analyze_plant_image (.ok raw) (.ok raw)).analysis ≠ "" := by
  have hadv : analyze_with_openai_advanced (.ok raw) =
      { success := true,
        analysis := format_plant_analysis raw (extractConfidenceAdv raw),
        raw_analysis := raw,
        confidence := extractConfidenceAdv raw,
        source := "openai_advanced" } := by
    show (if totalLen raw < 100 then
        ({ success := false, source := "openai_advanced" } : BotResult)
      else
        { success := true,
          analysis := format_plant_analysis raw (extractConfidenceAdv raw),
          raw_analysis := raw,
          confidence := extractConfidenceAdv raw,
          source := "openai_advanced" }) = _
    rw [if_neg (by omega)]
  have hnot : ¬ ((analyze_with_openai_advanced (.ok raw)).success = true ∧
      50 ≤ (analyze_with_openai_advanced (.ok raw)).confidence) := by
    rw [hadv]
    intro hcon
    exact absurd hcon.2 (by simpa using hconf)
  constructor
  · unfold bot_analyze_observe_calls
    rw [if_neg hnot]
  · unfold bot_analyze_plant_image
    rw [if_neg hnot, if_neg hnot]
    rw [hadv]
    simp only [if_pos rfl]
    refine ⟨rfl, rfl, rfl, format_plant_analysis_ne_empty raw (extractConfidenceAdv raw)⟩

/-- Witness for C4: Scenario A at a concrete confidence-40 reply. -/
theorem c4_low_confidence_retry_witness :
    100 ≤ totalLen sampleLowConfRaw ∧ extractConfidenceAdv sampleLowConfRaw < 50 ∧
    bot_analyze_observe_calls (.ok sampleLowConfRaw) = 2 ∧
    (bot_analyze_plant_image (.ok sampleLowConfRaw) (.ok sampleLowConfRaw)).needs_retry
      = true := by
  have h1 : 100 ≤ totalLen sampleLowConfRaw := by decide
  have h2 : extractConfidenceAdv sampleLowConfRaw < 50 := by decide
  have hmain := c4_low_confidence_retry sampleLowConfRaw h1 h2
  exact ⟨h1, h2, hmain.1, hmain.2.2.1⟩

/-! ## Daily sweep (services/reminder_service.py and bot.py) -/

/-- One row of the `plants` table — the columns the sweeps read. -/
structure PlantRow where
  pid : Nat
  user_id : Nat
  reminder_enabled : Bool := true
  plant_type : String := "regular"
  watering_interval : Nat := 5
  last_watered : Option Nat := none
  watering_count : Nat := 0
deriving Repr, DecidableEq

/-- One row of `user_settings` — the column the sweeps read. -/
structure UserRow where
  uid : Nat
  reminder_enabled : Bool := true
deriving Repr, DecidableEq

/-- The store state read and written by the sweep and the watering
callbacks. -/
structure SweepState where
  plants : List PlantRow
  users : List UserRow
  reminders : List Reminder
deriving Repr, DecidableEq

/-- `JOIN user_settings us ... AND us.reminder_enabled = TRUE`. -/
def userEnabled (users : List UserRow) (u : Nat) : Bool :=
  match users.find? (fun x => x.uid == u) with
  | some x => x.reminder_enabled
  | none => false

/-- The plant-side join and filters of `send_watering_reminders`:
the reminder's plant exists, has `reminder_enabled`, its user has
reminders enabled, and it is a regular plant. -/
def plantOkForReminder (st : SweepState) (r : Reminder) : Bool :=
  match r.plant_id with
  | none => false
  | some p =>
    match st.plants.find? (fun q => q.pid == p) with
    | none => false
    | some q =>
      q.reminder_enabled && userEnabled st.users q.user_id && (q.plant_type == "regular")

/-- `last_sent IS NULL OR last_sent::date < today`. -/
def lastSentBefore (r : Reminder) (today : Nat) : Bool :=
  match r.last_sent with
  | none => true
  | some d => decide (d < today)

/-- The row filter of `reminder_service.send_watering_reminders`
(reminder_service.py:50-72). -/
def wateringDue (st : SweepState) (today : Nat) (r : Reminder) : Bool :=
  (r.reminder_type == "watering") && r.is_active && plantOkForReminder st r &&
    decide (r.next_date ≤ today) && lastSentBefore r today

/-- The selection the services-layer daily sweep performs. -/
def selectWateringDue (st : SweepState) (today : Nat) : List Reminder :=
  st.reminders.filter (wateringDue st today)

/-- The DB write of `send_single_watering_reminder`
(reminder_service.py:163-174): set `last_sent` to now and increment
`send_count` on the sent row — nothing else. -/
def mark_sent (today rid0 : Nat) (rs : List Reminder) : List Reminder :=
  rs.map (fun r =>
    if r.rid == rid0 then { r with last_sent := some today, send_count := r.send_count + 1 }
    else r)

/-- Every reminder column except `last_sent` and `send_count`. -/
def reminderCore (r : Reminder) :
    Nat × Nat × Option Nat × Option Nat × String × Nat × Bool × Option Nat × Option Nat :=
  (r.rid, r.user_id, r.plant_id, r.growing_plant_id, r.reminder_type, r.next_date,
   r.is_active, r.stage_number, r.task_day)

theorem lastSentBefore_iff (r : Reminder) (today : Nat) :
    lastSentBefore r today = true ↔
      (r.last_sent = none ∨ ∃ d, r.last_sent = some d ∧ d < today) := by
  cases h : r.last_sent with
  | none => simp [lastSentBefore, h]
  | some d => simp [lastSentBefore, h]

theorem selectWateringDue_spec (st : SweepState) (today : Nat) (r : Reminder) :
    r ∈ selectWateringDue st today ↔
      r ∈ st.reminders ∧ r.reminder_type = "watering" ∧ r.is_active = true ∧
      plantOkForReminder st r = true ∧ r.next_date ≤ today ∧
      (r.last_sent = none ∨ ∃ d, r.last_sent = some d ∧ d < today) := by
  rw [selectWateringDue, List.mem_filter, wateringDue]
  rw [← lastSentBefore_iff r today]
  simp only [Bool.and_eq_true, beq_iff_eq, decide_eq_true_eq]
  constructor
  · rintro ⟨hm, ⟨⟨⟨ht, ha⟩, hp⟩, hd⟩, hs⟩
    exact ⟨hm, ht, ha, hp, hd, hs⟩
  · rintro ⟨hm, ht, ha, hp, hd, hs⟩
    exact ⟨hm, ⟨⟨⟨ht, ha⟩, hp⟩, hd⟩, hs⟩

theorem mark_sent_core_unchanged (today i : Nat) (rs : List Reminder) :
    (mark_sent today i rs).map reminderCore = rs.map reminderCore := by
  unfold mark_sent
  rw [List.map_map]
  apply List.map_congr_left
  intro r _
  by_cases hid : (r.rid == i) = true
  · simp only [Function.comp_apply, hid, if_pos]
    rfl
  · simp only [Function.comp_apply, hid, Bool.false_eq_true, if_neg, not_false_iff]

theorem sent_today_not_selected (st : SweepState) (today : Nat) (r : Reminder)
    (h : r.last_sent = some today) : r ∉ selectWateringDue st today := by
  intro hmem
  rw [selectWateringDue_spec] at hmem
  rcases hmem.2.2.2.2.2 with hnone | ⟨d, hd, hlt⟩
  · rw [h] at hnone
    exact Option.noConfusion hnone
  · rw [h] at hd
    injection hd with hd2
    omega

/-- Claim C5 as amended: the services daily sweep selects exactly the
active watering reminders, attached to reminder-enabled regular plants of
reminder-enabled users, whose `next_date` is ≤ today and whose
`last_sent` is null or before today; sending updates only `last_sent`
and `send_count` (never `next_date`); a reminder sent today is never
selected again by the same day's sweep, and while it stays overdue and
active it is selected again on every later day. -/
theorem c5_daily_sweep_semantics (st : SweepState) (today d i : Nat) (r : Reminder) :
    (r ∈ selectWateringDue st today ↔
      r ∈ st.reminders ∧ r.reminder_type = "watering" ∧ r.is_active = true ∧
      plantOkForReminder st r = true ∧ r.next_date ≤ today ∧
      (r.last_sent = none ∨ ∃ d2, r.last_sent = some d2 ∧ d2 < today)) ∧
    ((mark_sent today i st.reminders).map reminderCore = st.reminders.map reminderCore) ∧
    (r.last_sent = some today → r ∉ selectWateringDue st today) ∧
    (r ∈ st.reminders → today < d → r.reminder_type = "watering" → r.is_active = true →
      plantOkForReminder st r = true → r.next_date ≤ today → r.last_sent = some today →
      r ∈ selectWateringDue st d) := by
  refine ⟨selectWateringDue_spec st today r,
    mark_sent_core_unchanged today i st.reminders,
    sent_today_not_selected st today r, ?_⟩
  intro hmem hd ht ha hp hdue hs
  rw [selectWateringDue_spec]
  exact ⟨hmem, ht, ha, hp, Nat.le_trans hdue (Nat.le_of_lt hd), Or.inr ⟨today, hs, hd⟩⟩

/-- Reminder used by the C5 witness and counterexample states. -/
def dueRem : Reminder :=
  { rid := 1, user_id := 1, plant_id := some 1, reminder_type := "watering", next_date := 0 }

/-- A state whose only plant has reminders disabled. -/
def disabledPlantState : SweepState :=
  { plants := [{ pid := 1, user_id := 1, reminder_enabled := false }],
    users := [{ uid := 1 }],
    reminders := [dueRem] }

/-- Counterexample to claim C5 as stated: an active watering reminder
that is due today with `last_sent` null is nevertheless not selected,
because its plant has `reminder_enabled = FALSE` — the selection is not
exactly the set the claim describes. -/
theorem c5_daily_sweep_counterexample :
    dueRem ∈ disabledPlantState.reminders ∧
    dueRem.reminder_type = "watering" ∧ dueRem.is_active = true ∧
    dueRem.next_date ≤ 0 ∧ dueRem.last_sent = none ∧
    selectWateringDue disabledPlantState 0 = [] := by
  refine ⟨by decide, by decide, by decide, by decide, by decide, by decide⟩

/-- A state with one enabled plant and one sent reminder, for the C5
witness. -/
def sentTodayState : SweepState :=
  { plants := [{ pid := 1, user_id := 1 }],
    users := [{ uid := 1 }],
    reminders := [{ dueRem with last_sent := some 3 }] }

/-- Witness for C5: in a concrete state, a reminder already sent on day 3
is not selected by the day-3 sweep but is selected again on day 4. -/
theorem c5_daily_sweep_semantics_witness :
    ({ dueRem with last_sent := some 3 } : Reminder) ∉ selectWateringDue sentTodayState 3 ∧
    ({ dueRem with last_sent := some 3 } : Reminder) ∈ selectWateringDue sentTodayState 4 := by
  have hmain := c5_daily_sweep_semantics sentTodayState 3 4 1
    { dueRem with last_sent := some 3 }
  exact ⟨hmain.2.2.1 (by decide),
    hmain.2.2.2 (by decide) (by decide) (by decide) (by decide) (by decide)
      (by decide) (by decide)⟩

/-! ### C6: the bot-module daily sweep (bot.py:245-281) -/

/-- `last_watered IS NULL OR last_watered::date + interval <= today`
(bot.py:266-269). -/
def plant_needs_watering (today : Nat) (p : PlantRow) : Bool :=
  match p.last_watered with
  | none => true
  | some d => decide (d + p.watering_interval ≤ today)

/-- `NOT EXISTS (reminder for the plant with last_sent::date = today)`
(bot.py:270-274). -/
def reminderSentToday (rs : List Reminder) (pid today : Nat) : Bool :=
  rs.any (fun r =>
    r.plant_id == some pid &&
      (match r.last_sent with
       | some d => d == today
       | none => false))

/-- The plant selection of `bot.check_and_send_reminders`
(bot.py:254-276): enabled regular plants that are due by
`last_watered + interval` and have no reminder row sent today. -/
def bot_select_plants_to_water (st : SweepState) (today : Nat) : List PlantRow :=
  st.plants.filter (fun p =>
    p.reminder_enabled && userEnabled st.users p.user_id && (p.plant_type == "regular") &&
      plant_needs_watering today p && !(reminderSentToday st.reminders p.pid today))

/-- Scenario B's plant: never watered, interval 5, created on day 0. -/
def scenarioBPlant : PlantRow :=
  { pid := 1, user_id := 1, watering_interval := 5 }

/-- Scenario B's store on day 0: the plant, its user, and the watering
reminder that saving the plant created for day 0 + 5 via
`create_plant_reminder` → `create_reminder`. -/
def scenarioBState : SweepState :=
  { plants := [scenarioBPlant],
    users := [{ uid := 1 }],
    reminders := create_reminder 1 1 "watering" 5 1 [] }

/-- Claim C6: for a plant that has never been watered, with interval 5,
created on day 0, the first daily sweep run on day 0 selects exactly that
plant — so exactly one watering reminder is sent for it. -/
theorem c6_first_sweep_selects_new_plant :
    bot_select_plants_to_water scenarioBState 0 = [scenarioBPlant] ∧
    (bot_select_plants_to_water scenarioBState 0).length = 1 := by
  refine ⟨by decide, by decide⟩

/-! ## State extractor (ai_service.py:19-72, identical copy in bot.py:598-651) -/

/-- The fixed state enum. -/
inductive PlantState
  | healthy
  | flowering
  | active_growth
  | dormancy
  | stress
  | adaptation
deriving Repr, DecidableEq

/-- The growth-stage enum. -/
inductive GrowthStage
  | young
  | mature
  | old
deriving Repr, DecidableEq

/-- The `state_info` dict of `extract_plant_state_from_analysis`. -/
structure StateInfo where
  current_state : PlantState
  state_reason : String
  growth_stage : GrowthStage
  watering_adjustment : Int
  feeding_adjustment : Option Int
  recommendations : String
deriving Repr, DecidableEq

/-- The dict's initial value (ai_service.py:21-28). -/
def initialStateInfo : StateInfo :=
  { current_state := .healthy, state_reason := "", growth_stage := .young,
    watering_adjustment := 0, feeding_adjustment := none, recommendations := "" }

/-- The keyword chain on a `ТЕКУЩЕЕ_СОСТОЯНИЕ:` line (ai_service.py:39-55):
case-insensitive, first matching branch wins in the order
flowering → active_growth → dormancy → stress → adaptation → else healthy;
flowering also sets watering_adjustment −2, active_growth sets
feeding_adjustment 7, dormancy sets watering_adjustment +5. -/
def applyStateLine (si : StateInfo) (stateText : String) : StateInfo :=
  let ls := (lowerStr stateText).toList
  if hasSub "flowering".toList ls || hasSub "цветен".toList ls then
    { si with current_state := .flowering, watering_adjustment := -2 }
  else if hasSub "active_growth".toList ls || hasSub "активн".toList ls then
    { si with current_state := .active_growth, feeding_adjustment := some 7 }
  else if hasSub "dormancy".toList ls || hasSub "покой".toList ls then
    { si with current_state := .dormancy, watering_adjustment := 5 }
  else if hasSub "stress".toList ls || hasSub "стресс".toList ls ||
      hasSub "болезн".toList ls then
    { si with current_state := .stress }
  else if hasSub "adaptation".toList ls || hasSub "адаптац".toList ls then
    { si with current_state := .adaptation }
  else
    { si with current_state := .healthy }

/-- The keyword chain on an `ЭТАП_РОСТА:` line (ai_service.py:60-67). -/
def applyStageLine (si : StateInfo) (stageText : String) : StateInfo :=
  let ls := (lowerStr stageText).toList
  if hasSub "young".toList ls || hasSub "молод".toList ls then
    { si with growth_stage := .young }
  else if hasSub "mature".toList ls || hasSub "взросл".toList ls then
    { si with growth_stage := .mature }
  else if hasSub "old".toList ls || hasSub "стар".toList ls then
    { si with growth_stage := .old }
  else si

/-- One loop iteration of `extract_plant_state_from_analysis`. -/
def stateInfoStep (si : StateInfo) (line : String) : StateInfo :=
  let cs := trimChars line.toList
  if beginsWith "ТЕКУЩЕЕ_СОСТОЯНИЕ:".toList cs then
    applyStateLine si (markerRest "ТЕКУЩЕЕ_СОСТОЯНИЕ:" cs)
  else if beginsWith "ПРИЧИНА_СОСТОЯНИЯ:".toList cs then
    { si with state_reason := markerRest "ПРИЧИНА_СОСТОЯНИЯ:" cs }
  else if beginsWith "ЭТАП_РОСТА:".toList cs then
    applyStageLine si (markerRest "ЭТАП_РОСТА:" cs)
  else if beginsWith "ДИНАМИЧЕСКИЕ_РЕКОМЕНДАЦИИ:".toList cs then
    { si with recommendations := markerRest "ДИНАМИЧЕСКИЕ_РЕКОМЕНДАЦИИ:" cs }
  else si

/-- `extract_plant_state_from_analysis` (ai_service.py:19-72). -/
def extract_plant_state_from_analysis (lines : List String) : StateInfo :=
  lines.foldl stateInfoStep initialStateInfo

/-- Effect of the save path `save_plant_callback` (bot.py:1606-1661) on
the stored watering interval: `update_plant_watering_interval` first
writes the parsed model interval, then `update_plant_state`
(database.py:497-503) applies the extracted state's watering adjustment
to it. -/
def bot_save_plant_interval (lines : List String) : Int :=
  update_plant_state_interval (extract_personal_watering_info lines : Int)
    (extract_plant_state_from_analysis lines).watering_adjustment

/-! ### C7: classifier semantics -/

/-- Claim C7 as amended: the classifier works on the lower-cased text
(case-insensitive), the first matching branch wins in the priority order
flowering → active_growth → dormancy → stress → adaptation → else
healthy, each state carries its default adjustments (flowering −2 days
watering, dormancy +5, active_growth weekly feeding, others 0/none) and
growth stage defaults to young; however a nonzero per-state watering
adjustment is applied on top of the stored interval (clamped into
[2, 15]) on every state write — including when the model provided an
explicit interval, which it therefore can override. -/
theorem c7_state_classifier (si : StateInfo) (s t : String) (lines : List String) :
    ((hasSub "flowering".toList (lowerStr s).toList ||
        hasSub "цветен".toList (lowerStr s).toList) = true →
      applyStateLine si s =
        { si with current_state := .flowering, watering_adjustment := -2 }) ∧
    ((hasSub "flowering".toList (lowerStr s).toList ||
        hasSub "цветен".toList (lowerStr s).toList) = false →
      (hasSub "active_growth".toList (lowerStr s).toList ||
        hasSub "активн".toList (lowerStr s).toList) = true →
      applyStateLine si s =
        { si with current_state := .active_growth, feeding_adjustment := some 7 }) ∧
    ((hasSub "flowering".toList (lowerStr s).toList ||
        hasSub "цветен".toList (lowerStr s).toList) = false →
      (hasSub "active_growth".toList (lowerStr s).toList ||
        hasSub "активн".toList (lowerStr s).toList) = false →
      (hasSub "dormancy".toList (lowerStr s).toList ||
        hasSub "покой".toList (lowerStr s).toList) = true →
      applyStateLine si s =
        { si with current_state := .dormancy, watering_adjustment := 5 }) ∧
    ((hasSub "flowering".toList (lowerStr s).toList ||
        hasSub "цветен".toList (lowerStr s).toList) = false →
      (hasSub "active_growth".toList (lowerStr s).toList ||
        hasSub "активн".toList (lowerStr s).toList) = false →
      (hasSub "dormancy".toList (lowerStr s).toList ||
        hasSub "покой".toList (lowerStr s).toList) = false →
      (hasSub "stress".toList (lowerStr s).toList ||
        hasSub "стресс".toList (lowerStr s).toList ||
        hasSub "болезн".toList (lowerStr s).toList) = false →
      (hasSub "adaptation".toList (lowerStr s).toList ||
        hasSub "адаптац".toList (lowerStr s).toList) = false →
      applyStateLine si s = { si with current_state := .healthy }) ∧
    (lowerStr s = lowerStr t → applyStateLine si s = applyStateLine si t) ∧
    (extract_plant_state_from_analysis [] = initialStateInfo ∧
      initialStateInfo.growth_stage = .young ∧
      initialStateInfo.watering_adjustment = 0 ∧
      initialStateInfo.feeding_adjustment = none) ∧
    ((extract_plant_state_from_analysis lines).watering_adjustment ≠ 0 →
      bot_save_plant_interval lines =
        max 2 (min 15 ((extract_personal_watering_info lines : Int) +
          (extract_plant_state_from_analysis lines).watering_adjustment))) := by
  refine ⟨?_, ?_, ?_, ?_, ?_, ⟨rfl, rfl, rfl, rfl⟩, ?_⟩
  · intro h1
    simp only [applyStateLine, h1]
    rfl
  · intro h1 h2
    simp only [applyStateLine, h1, h2]
    rfl
  · intro h1 h2 h3
    simp only [applyStateLine, h1, h2, h3]
    rfl
  · intro h1 h2 h3 h4 h5
    simp only [applyStateLine, h1, h2, h3, h4, h5]
    rfl
  · intro hlow
    simp only [applyStateLine, hlow]
  · intro hadj
    unfold bot_save_plant_interval update_plant_state_interval
    rw [if_pos hadj]

/-- Witness for C7: the upper-case Cyrillic line `АКТИВНЫЙ РОСТ` is
classified as active_growth with weekly feeding (case-insensitive,
second branch). -/
theorem c7_state_classifier_witness :
    applyStateLine initialStateInfo "АКТИВНЫЙ РОСТ" =
      { initialStateInfo with
          current_state := PlantState.active_growth, feeding_adjustment := some 7 } := by
  exact (c7_state_classifier initialStateInfo "АКТИВНЫЙ РОСТ" "" []).2.1
    (by decide) (by decide)

/-- Counterexample to claim C7 as stated: with a model-provided explicit
interval of 10 days and state flowering, the save path stores 10 and the
state write then replaces it by 10 − 2 = 8 — the default adjustment does
override the explicit model interval. -/
theorem c7_state_classifier_counterexample :
    extract_personal_watering_info
        ["ТЕКУЩЕЕ_СОСТОЯНИЕ: flowering", "ПОЛИВ_ИНТЕРВАЛ: 10"] = 10 ∧
    (extract_plant_state_from_analysis
        ["ТЕКУЩЕЕ_СОСТОЯНИЕ: flowering", "ПОЛИВ_ИНТЕРВАЛ: 10"]).watering_adjustment = -2 ∧
    bot_save_plant_interval
        ["ТЕКУЩЕЕ_СОСТОЯНИЕ: flowering", "ПОЛИВ_ИНТЕРВАЛ: 10"] = 8 ∧
    (8 : Int) ≠ 10 := by
  refine ⟨by decide, by decide, by decide, by decide⟩

/-! ## Watering acknowledgements (bot.py:1965-2019, database.py:688-725) -/

/-- `PlantDatabase.update_watering` with a plant id (database.py:691-697):
stamp `last_watered` and bump `watering_count` for one plant. -/
def update_watering_single (now u p : Nat) (ps : List PlantRow) : List PlantRow :=
  ps.map (fun q =>
    if q.user_id == u && q.pid == p then
      { q with last_watered := some now, watering_count := q.watering_count + 1 }
    else q)

/-- `PlantDatabase.update_watering` without a plant id (database.py:706-716):
stamp every plant of the user. -/
def update_watering_all (now u : Nat) (ps : List PlantRow) : List PlantRow :=
  ps.map (fun q =>
    if q.user_id == u then
      { q with last_watered := some now, watering_count := q.watering_count + 1 }
    else q)

/-- `water_single_plant_callback` (bot.py:1965-1998): look the plant up,
stamp its `last_watered`, then `create_plant_reminder` → Create/Replace
with `next_date = now + watering_interval`. -/
def water_single_plant (st : SweepState) (now u p newId : Nat) : SweepState :=
  match st.plants.find? (fun q => q.pid == p && q.user_id == u) with
  | none => st
  | some q =>
    let ps := update_watering_single now u p st.plants
    let rs := create_reminder u p "watering" (now + q.watering_interval) newId st.reminders
    { st with plants := ps, reminders := rs }

/-- `water_plants_callback` (bot.py:2000-2019): only `update_watering`
for the whole user — it performs no reminder Create/Replace at all. -/
def water_plants (st : SweepState) (now u : Nat) : SweepState :=
  { st with plants := update_watering_all now u st.plants }

theorem create_reminder_active_filter (u p : Nat) (t : String) (d i : Nat)
    (rs : List Reminder) :
    (create_reminder u p t d i rs).filter (isActiveFor u (some p) none t) =
      [{ rid := i, user_id := u, plant_id := some p, reminder_type := t,
         next_date := d }] := by
  unfold create_reminder
  rw [List.filter_append]
  have h0 : (deactivateForPlant u p t rs).filter (isActiveFor u (some p) none t) = [] := by
    have hc := activeCount_deactivateForPlant_self u p none t rs
    unfold activeCount at hc
    exact List.length_eq_zero.mp hc
  rw [h0]
  have hrow : isActiveFor u (some p) none t
      { rid := i, user_id := u, plant_id := some p, reminder_type := t,
        next_date := d } = true := by
    simp [isActiveFor]
  simp [List.filter_cons, hrow]

theorem update_watering_single_stamps (now u p : Nat) (ps : List PlantRow) :
    ∀ q2 ∈ update_watering_single now u p ps,
      q2.pid = p → q2.user_id = u → q2.last_watered = some now := by
  intro q2 hmem hpid huid
  rw [update_watering_single, List.mem_map] at hmem
  obtain ⟨q0, _, heq⟩ := hmem
  by_cases hc : (q0.user_id == u && q0.pid == p) = true
  · rw [if_pos hc] at heq
    rw [← heq]
  · rw [if_neg hc] at heq
    subst heq
    exfalso
    apply hc
    simp only [Bool.and_eq_true, beq_iff_eq]
    exact ⟨huid, hpid⟩

theorem update_watering_all_stamps (now u : Nat) (ps : List PlantRow) :
    ∀ q2 ∈ update_watering_all now u ps, q2.user_id = u → q2.last_watered = some now := by
  intro q2 hmem huid
  rw [update_watering_all, List.mem_map] at hmem
  obtain ⟨q0, _, heq⟩ := hmem
  by_cases hc : (q0.user_id == u) = true
  · rw [if_pos hc] at heq
    rw [← heq]
  · rw [if_neg hc] at heq
    subst heq
    exact absurd (beq_iff_eq.mpr huid) hc

/-- Claim C8 as amended: a single-plant watering acknowledgement stamps
the plant's `last_watered` and Create/Replaces its watering reminder so
that the unique active watering reminder carries
`next_date = now + watering_interval`; the acknowledge-all handler only
stamps `last_watered` on every plant of the user and performs no reminder
Create/Replace — the reminders table is untouched. -/
theorem c8_watering_ack (st : SweepState) (now u p newId : Nat) (q : PlantRow)
    (hfind : st.plants.find? (fun q2 => q2.pid == p && q2.user_id == u) = some q) :
    (water_single_plant st now u p newId).reminders =
      create_reminder u p "watering" (now + q.watering_interval) newId st.reminders ∧
    ((water_single_plant st now u p newId).reminders.filter
        (isActiveFor u (some p) none "watering") =
      [{ rid := newId, user_id := u, plant_id := some p, reminder_type := "watering",
         next_date := now + q.watering_interval }]) ∧
    (∀ q2 ∈ (water_single_plant st now u p newId).plants,
      q2.pid = p → q2.user_id = u → q2.last_watered = some now) ∧
    (water_plants st now u).reminders = st.reminders ∧
    (∀ q2 ∈ (water_plants st now u).plants, q2.user_id = u → q2.last_watered = some now) := by
  have hw1 : (water_single_plant st now u p newId).reminders =
      create_reminder u p "watering" (now + q.watering_interval) newId st.reminders := by
    unfold water_single_plant
    rw [hfind]
  have hw2 : (water_single_plant st now u p newId).plants =
      update_watering_single now u p st.plants := by
    unfold water_single_plant
    rw [hfind]
  refine ⟨hw1, ?_, ?_, rfl, update_watering_all_stamps now u st.plants⟩
  · rw [hw1]
    exact create_reminder_active_filter u p "watering" (now + q.watering_interval) newId
      st.reminders
  · rw [hw2]
    exact update_watering_single_stamps now u p st.plants

/-- The state used by the C8 witness and counterexample: one plant with
interval 5 and one active watering reminder due on day 3. -/
def ackOldRem : Reminder :=
  { rid := 1, user_id := 1, plant_id := some 1, reminder_type := "watering",
    next_date := 3 }

def wateringAckState : SweepState :=
  { plants := [{ pid := 1, user_id := 1, watering_interval := 5 }],
    users := [{ uid := 1 }],
    reminders := [ackOldRem] }

/-- Witness for C8 at the concrete state: acknowledging plant 1 on day 10
leaves exactly one active watering reminder, due on day 15. -/
theorem c8_watering_ack_witness :
    (water_single_plant wateringAckState 10 1 1 2).reminders.filter
        (isActiveFor 1 (some 1) none "watering") =
      [{ rid := 2, user_id := 1, plant_id := some 1, reminder_type := "watering",
         next_date := 15 }] := by
  exact (c8_watering_ack wateringAckState 10 1 1 2
    { pid := 1, user_id := 1, watering_interval := 5 } (by decide)).2.1

/-- Counterexample to claim C8 as stated: acknowledging all plants at
once (day 10, user 1) leaves the reminders table unchanged — no reminder
with `next_date = 10 + 5` exists afterwards, so no Create/Replace
happened for this acknowledgement. -/
theorem c8_watering_ack_counterexample :
    (water_plants wateringAckState 10 1).reminders = wateringAckState.reminders ∧
    (∀ r ∈ (water_plants wateringAckState 10 1).reminders, r.next_date ≠ 15) ∧
    (∀ q2 ∈ (water_plants wateringAckState 10 1).plants, q2.last_watered = some 10) := by
  refine ⟨rfl, by decide, by decide⟩

/-! ## Growth-task chain (bot.py:465-501, handlers/growing.py:98-109) -/

/-- One `{day, title, ...}` entry of a stage's task list. -/
structure GrowTask where
  day : Nat
  title : String
deriving Repr, DecidableEq

/-- One stage of the task calendar (`stage_1`, `stage_2`, ... keys; the
stage with key `stage_(i+1)` sits at list index `i`). -/
structure GrowStage where
  stage_name : String
  tasks : List GrowTask
deriving Repr, DecidableEq

/-- The columns of `growing_plants` that the scheduler reads. -/
structure GrowingPlant where
  gid : Nat
  user_id : Nat
  started_date : Nat
  current_stage : Nat
  calendar : List GrowStage
deriving Repr, DecidableEq

/-- Insertion step of the model of Python `sorted(tasks, key=day)`. -/
def insertTask (t : GrowTask) : List GrowTask → List GrowTask
  | [] => [t]
  | u :: us => if t.day ≤ u.day then t :: u :: us else u :: insertTask t us

/-- `sorted(tasks, key=lambda x: x.get('day', 0))` (bot.py:479). -/
def sortTasks : List GrowTask → List GrowTask
  | [] => []
  | t :: ts => insertTask t (sortTasks ts)

/-- The scan of `schedule_next_task_reminder` (bot.py:481-484): the first
task in day order whose day is strictly greater than the day just sent. -/
def next_task_after (ts : List GrowTask) (currentDay : Nat) : Option GrowTask :=
  (sortTasks ts).find? (fun t => decide (currentDay < t.day))

/-- `schedule_next_task_reminder` (bot.py:465-501): look up the current
stage's task list, pick the first strictly later day, Create/Replace the
task reminder at `started_date + day`; when the stage key is missing or
no later task exists, do nothing — no advance to the next stage. -/
def schedule_next_task_reminder (gp : GrowingPlant) (currentDay newId : Nat)
    (rs : List Reminder) : List Reminder :=
  match gp.calendar.get? gp.current_stage with
  | none => rs
  | some stage =>
    match next_task_after stage.tasks currentDay with
    | none => rs
    | some t =>
      create_growing_reminder gp.gid gp.user_id "task" (gp.started_date + t.day)
        (some (gp.current_stage + 1)) (some t.day) newId rs

/-- `confirm_growing_plan_callback` (handlers/growing.py:98-109): on plan
creation, Create/Replace exactly one task reminder with `task_day = 1`,
due tomorrow. -/
def confirm_growing_plan (gid u now newId : Nat) (rs : List Reminder) : List Reminder :=
  create_growing_reminder gid u "task" (now + 1) (some 1) (some 1) newId rs

theorem mem_insertTask (t x : GrowTask) (l : List GrowTask) :
    x ∈ insertTask t l ↔ x = t ∨ x ∈ l := by
  induction l with
  | nil => simp [insertTask]
  | cons u us ih =>
    by_cases hc : t.day ≤ u.day
    · simp [insertTask, hc]
    · simp only [insertTask, hc, if_neg, not_false_iff, List.mem_cons, ih]
      tauto

theorem mem_sortTasks (x : GrowTask) (l : List GrowTask) :
    x ∈ sortTasks l ↔ x ∈ l := by
  induction l with
  | nil => simp [sortTasks]
  | cons t ts ih =>
    simp only [sortTasks, mem_insertTask, List.mem_cons, ih]

theorem pairwise_insertTask (t : GrowTask) (l : List GrowTask)
    (h : List.Pairwise (fun a b => a.day ≤ b.day) l) :
    List.Pairwise (fun a b => a.day ≤ b.day) (insertTask t l) := by
  induction l with
  | nil => simp [insertTask]
  | cons u us ih =>
    rw [List.pairwise_cons] at h
    obtain ⟨hu, hus⟩ := h
    by_cases hc : t.day ≤ u.day
    · simp only [insertTask, hc, if_pos]
      rw [List.pairwise_cons]
      refine ⟨?_, ?_⟩
      · intro x hx
        rcases List.mem_cons.mp hx with rfl | hx2
        · exact hc
        · exact le_trans hc (hu x hx2)
      · rw [List.pairwise_cons]
        exact ⟨hu, hus⟩
    · simp only [insertTask, hc, if_neg, not_false_iff]
      rw [List.pairwise_cons]
      refine ⟨?_, ih hus⟩
      intro x hx
      rcases (mem_insertTask t x us).mp hx with rfl | hx2
      · omega
      · exact hu x hx2

theorem pairwise_sortTasks (l : List GrowTask) :
    List.Pairwise (fun a b => a.day ≤ b.day) (sortTasks l) := by
  induction l with
  | nil => simp [sortTasks]
  | cons t ts ih => exact pairwise_insertTask t (sortTasks ts) ih

theorem find_min_sorted (d : Nat) (l : List GrowTask) (t : GrowTask)
    (hs : List.Pairwise (fun a b => a.day ≤ b.day) l)
    (h : l.find? (fun x => decide (d < x.day)) = some t) :
    d < t.day ∧ ∀ x ∈ l, d < x.day → t.day ≤ x.day := by
  induction l with
  | nil => simp at h
  | cons a as ih =>
    rw [List.pairwise_cons] at hs
    by_cases hc : (decide (d < a.day)) = true
    · rw [List.find?_cons_of_pos as
        (show (fun x => decide (d < x.day)) a = true from hc)] at h
      injection h with h2
      subst h2
      refine ⟨by simpa using hc, ?_⟩
      intro x hx _
      rcases List.mem_cons.mp hx with rfl | hx2
      · exact le_refl x.day
      · exact hs.1 x hx2
    · rw [List.find?_cons_of_neg as
        (show ¬ (fun x => decide (d < x.day)) a = true from hc)] at h
      obtain ⟨h1, h2⟩ := ih hs.2 h
      refine ⟨h1, ?_⟩
      intro x hx hdx
      rcases List.mem_cons.mp hx with rfl | hx2
      · exact absurd (by simpa using hdx) (by simpa using hc)
      · exact h2 x hx2 hdx

theorem next_task_after_spec (ts : List GrowTask) (d : Nat) (t : GrowTask)
    (h : next_task_after ts d = some t) :
    d < t.day ∧ ∀ x ∈ ts, d < x.day → t.day ≤ x.day := by
  unfold next_task_after at h
  have hmin := find_min_sorted d (sortTasks ts) t (pairwise_sortTasks ts) h
  refine ⟨hmin.1, ?_⟩
  intro x hx
  exact hmin.2 x ((mem_sortTasks x ts).mpr hx)

theorem next_task_after_none (ts : List GrowTask) (d : Nat) :
    next_task_after ts d = none ↔ ∀ x ∈ ts, x.day ≤ d := by
  unfold next_task_after
  rw [List.find?_eq_none]
  constructor
  · intro h x hx
    have h2 := h x ((mem_sortTasks x ts).mpr hx)
    simp only [decide_eq_true_eq] at h2
    omega
  · intro h x hx
    have h2 := h x ((mem_sortTasks x ts).mp hx)
    simp only [decide_eq_true_eq]
    omega

theorem create_growing_reminder_active_filter (g u : Nat) (t : String) (d : Nat)
    (sn td : Option Nat) (i : Nat) (rs : List Reminder) :
    (create_growing_reminder g u t d sn td i rs).filter (isActiveFor u none (some g) t) =
      [{ rid := i, user_id := u, plant_id := none, growing_plant_id := some g,
         reminder_type := t, next_date := d, stage_number := sn, task_day := td }] := by
  unfold create_growing_reminder
  rw [List.filter_append]
  have h0 : (deactivateForGrowing g t rs).filter (isActiveFor u none (some g) t) = [] := by
    have hc := activeCount_deactivateForGrowing_self g t u none rs
    unfold activeCount at hc
    exact List.length_eq_zero.mp hc
  rw [h0]
  have hrow : isActiveFor u none (some g) t
      { rid := i, user_id := u, plant_id := none, growing_plant_id := some g,
        reminder_type := t, next_date := d, stage_number := sn, task_day := td } = true := by
    simp [isActiveFor]
  simp [List.filter_cons, hrow]

/-- Claim C9: plan creation schedules exactly one active task reminder
with `task_day = 1`; when a task reminder for day `currentDay` fires, the
scheduler Create/Replaces the task with the smallest day strictly greater
than `currentDay` within the current stage, at `started_date + day` — so
scheduled offsets strictly increase and never regress or repeat — and
when no greater offset exists in the current stage nothing is scheduled
(no advance to the next stage). -/
theorem c9_task_chain_schedule (gp : GrowingPlant) (stage : GrowStage)
    (currentDay newId gid u now : Nat) (t : GrowTask) (rs : List Reminder) :
    ((confirm_growing_plan gid u now newId rs).filter
        (isActiveFor u none (some gid) "task") =
      [{ rid := newId, user_id := u, plant_id := none, growing_plant_id := some gid,
         reminder_type := "task", next_date := now + 1, stage_number := some 1,
         task_day := some 1 }]) ∧
    (next_task_after stage.tasks currentDay = some t →
      currentDay < t.day ∧ ∀ x ∈ stage.tasks, currentDay < x.day → t.day ≤ x.day) ∧
    (next_task_after stage.tasks currentDay = none ↔
      ∀ x ∈ stage.tasks, x.day ≤ currentDay) ∧
    (gp.calendar.get? gp.current_stage = some stage →
      next_task_after stage.tasks currentDay = some t →
      schedule_next_task_reminder gp currentDay newId rs =
        create_growing_reminder gp.gid gp.user_id "task" (gp.started_date + t.day)
          (some (gp.current_stage + 1)) (some t.day) newId rs) ∧
    (gp.calendar.get? gp.current_stage = some stage →
      next_task_after stage.tasks currentDay = none →
      schedule_next_task_reminder gp currentDay newId rs = rs) := by
  refine ⟨create_growing_reminder_active_filter gid u "task" (now + 1) (some 1) (some 1)
      newId rs,
    next_task_after_spec stage.tasks currentDay t,
    next_task_after_none stage.tasks currentDay, ?_, ?_⟩
  · intro hcal hnext
    unfold schedule_next_task_reminder
    rw [hcal]
    show (match next_task_after stage.tasks currentDay with
      | none => rs
      | some t =>
        create_growing_reminder gp.gid gp.user_id "task" (gp.started_date + t.day)
          (some (gp.current_stage + 1)) (some t.day) newId rs) = _
    rw [hnext]
  · intro hcal hnext
    unfold schedule_next_task_reminder
    rw [hcal]
    show (match next_task_after stage.tasks currentDay with
      | none => rs
      | some t =>
        create_growing_reminder gp.gid gp.user_id "task" (gp.started_date + t.day)
          (some (gp.current_stage + 1)) (some t.day) newId rs) = _
    rw [hnext]

/-- A concrete stage used by the C9 witness: tasks on days 1, 3 and 7. -/
def sampleStage : GrowStage :=
  { stage_name := "Подготовка и посадка",
    tasks := [{ day := 1, title := "Посадка" }, { day := 3, title := "Первый полив" },
      { day := 7, title := "Проверка" }] }

/-- A concrete growing plant on stage 0 of a one-stage calendar. -/
def sampleGrowing : GrowingPlant :=
  { gid := 4, user_id := 9, started_date := 100, current_stage := 0,
    calendar := [sampleStage] }

/-- Witness for C9 at the concrete calendar: after the day-3 task fires,
the day-7 task (the smallest offset above 3) is scheduled at
`started_date + 7`, and after day 7 the chain stops. -/
theorem c9_task_chain_schedule_witness :
    schedule_next_task_reminder sampleGrowing 3 2 [] =
      create_growing_reminder 4 9 "task" 107 (some 1) (some 7) 2 [] ∧
    schedule_next_task_reminder sampleGrowing 7 3 [] = [] := by
  have hmain := c9_task_chain_schedule sampleGrowing sampleStage 3 2 4 9 0
    { day := 7, title := "Проверка" } []
  have hmain2 := c9_task_chain_schedule sampleGrowing sampleStage 7 3 4 9 0
    { day := 7, title := "Проверка" } []
  exact ⟨hmain.2.2.2.1 (by decide) (by decide),
    hmain2.2.2.2.2 (by decide) (by decide)⟩

/-! ## Services-layer save and seasonal pass (plant_service.py,
seasonal_adjustment_service.py)

Python resolves `db.method(...)` by attribute lookup at call time; a name
the class does not define raises `AttributeError`, which the enclosing
`try`/`except` turns into the error return.  The lookup is modelled by
membership in the list of method names `class PlantDatabase` defines. -/

/-- The method names defined by `class PlantDatabase` (database.py). -/
def plantDatabaseMethods : List String :=
  ["init_pool", "create_tables", "extract_plant_name_from_analysis", "add_user",
   "get_user_reminder_settings", "save_plant", "get_plant_with_state",
   "update_plant_state", "get_plant_state_history", "get_plants_for_monthly_reminder",
   "mark_monthly_reminder_sent", "update_plant_name", "update_plant_watering_interval",
   "get_plant_by_id", "get_user_plants", "update_watering", "delete_plant",
   "create_reminder", "create_growing_plant", "create_growth_stages",
   "parse_growing_plan_to_stages", "get_growing_plant_by_id", "create_growing_reminder",
   "save_feedback", "get_user_stats", "save_full_analysis", "get_plant_analyses_history",
   "save_qa_interaction", "get_plant_qa_history", "log_plant_problem",
   "get_plant_problems_history", "get_unresolved_problems", "save_user_pattern",
   "get_user_patterns", "get_plant_environment", "close"]

/-- The store state `save_analyzed_plant` touches. -/
structure DbState where
  plants : List PlantRow := []
  state_history : List (Nat × PlantState) := []
  reminders : List Reminder := []
deriving Repr, DecidableEq

/-- The plant row `save_analyzed_plant` has written when the failing call
is reached: created by `save_plant` and updated by
`update_plant_watering_interval` with the clamped interval. -/
def savedPlantRow (newPid u interval : Nat) : PlantRow :=
  { pid := newPid, user_id := u, watering_interval := interval }

/-- `plant_service.save_analyzed_plant` (plant_service.py:15-132): clamp
the model interval into [3, 28], create the plant row, write the
interval, then call `db.set_base_watering_interval` — when that attribute
is missing the `except` branch returns success = false with the earlier
writes retained and the rest of the body (state-history entry,
full-analysis save, reminder creation) never executed. -/
def save_analyzed_plant (st : DbState) (u aiInterval newPid newRid now : Nat)
    (state : PlantState) : DbState × Bool :=
  let interval := max 3 (min 28 aiInterval)
  let st1 : DbState :=
    { st with plants := st.plants ++ [savedPlantRow newPid u interval] }
  if plantDatabaseMethods.contains "set_base_watering_interval" then
    let st2 : DbState := { st1 with state_history := st1.state_history ++ [(newPid, state)] }
    let rs3 := create_reminder u newPid "watering" (now + interval) newRid st2.reminders
    let st3 : DbState := { st2 with reminders := rs3 }
    (st3, true)
  else
    (st1, false)

/-- `seasonal_adjustment_service.adjust_all_plants_for_season`
(seasonal_adjustment_service.py:89-179): the first store call is
`db.get_all_plants_for_seasonal_update`; when that attribute is missing
the catch-all `except` returns with no plant updated.  `gptInterval`
stands for the per-plant model answer the (unreachable) success path
would apply. -/
def adjust_all_plants_for_season (st : DbState) (gptInterval : Nat → Nat) : DbState :=
  if plantDatabaseMethods.contains "get_all_plants_for_seasonal_update" then
    { st with plants := st.plants.map (fun q =>
        { q with watering_interval := max 3 (min 28 (gptInterval q.pid)) }) }
  else st

/-- Claim C10: `PlantDatabase` defines neither `set_base_watering_interval`
nor `get_all_plants_for_seasonal_update`; therefore `save_analyzed_plant`
always returns success = false, retaining the plant row and its clamped
interval but writing no state-history entry and no reminder, and
`adjust_all_plants_for_season` always aborts updating no plant. -/
theorem c10_services_layer_always_fails (st : DbState)
    (u aiInterval newPid newRid now : Nat) (state : PlantState) (gpt : Nat → Nat) :
    plantDatabaseMethods.contains "set_base_watering_interval" = false ∧
    plantDatabaseMethods.contains "get_all_plants_for_seasonal_update" = false ∧
    (save_analyzed_plant st u aiInterval newPid newRid now state).2 = false ∧
    (save_analyzed_plant st u aiInterval newPid newRid now state).1.plants =
      st.plants ++ [savedPlantRow newPid u (max 3 (min 28 aiInterval))] ∧
    (save_analyzed_plant st u aiInterval newPid newRid now state).1.state_history =
      st.state_history ∧
    (save_analyzed_plant st u aiInterval newPid newRid now state).1.reminders =
      st.reminders ∧
    adjust_all_plants_for_season st gpt = st := by
  have h1 : ¬ (plantDatabaseMethods.contains "set_base_watering_interval" = true) := by
    decide
  have h2 : ¬ (plantDatabaseMethods.contains "get_all_plants_for_seasonal_update"
      = true) := by
    decide
  have hsave : save_analyzed_plant st u aiInterval newPid newRid now state =
      ({ st with plants := st.plants ++
          [savedPlantRow newPid u (max 3 (min 28 aiInterval))] }, false) := by
    unfold save_analyzed_plant
    rw [if_neg h1]
  have hadj : adjust_all_plants_for_season st gpt = st := by
    unfold adjust_all_plants_for_season
    rw [if_neg h2]
  refine ⟨by decide, by decide, ?_, ?_, ?_, ?_, hadj⟩
  · rw [hsave]
  · rw [hsave]
  · rw [hsave]
  · rw [hsave]
